import Mathlib

/-
Verification development for the PageIndex RAG chat backend.

The embedding follows src/core/routes.py (upload_pdf, chat_with_pdf,
delete_pdf) and src/core/llm_engine.py (make_async_api_call,
telkomllm_call).  Python dictionaries are modelled as association lists
over String keys; the external collaborators (PageIndex document
service, LLM endpoint, json parsing of free text) are modelled as
oracle parameters supplied in an environment record.
-/

namespace PageIndexRAG

/-- Lookup in an association list; models Python dict indexing d[k]
(first binding wins, matching dict semantics as maintained by the
insert and remove operations below). -/
def lookupA {α : Type} : List (String × α) → String → Option α
  | [], _ => none
  | (k, v) :: t, key => if k = key then some v else lookupA t key

/-- Models Python dict assignment d[k] = v. -/
def insertA {α : Type} (l : List (String × α)) (k : String) (v : α) : List (String × α) :=
  (k, v) :: l

/-- Models Python del d[k]: afterwards the key is absent. -/
def removeA {α : Type} : List (String × α) → String → List (String × α)
  | [], _ => []
  | (k, v) :: t, key => if k = key then removeA t key else (k, v) :: removeA t key

/-- Models the Python membership test k in d. -/
def containsA {α : Type} (l : List (String × α)) (k : String) : Bool :=
  (lookupA l k).isSome

/-- A document tree node as returned by the external PageIndex service:
node id, title, summary, page index, full text, and child nodes
(spec section 3, DocumentTree / TreeNode). -/
inductive Tree where
  | mk (node_id title summary : String) (page_index : Nat) (text : String)
       (children : List Tree)

def Tree.node_id : Tree → String
  | .mk i _ _ _ _ _ => i

def Tree.title : Tree → String
  | .mk _ t _ _ _ _ => t

def Tree.summary : Tree → String
  | .mk _ _ s _ _ _ => s

def Tree.page_index : Tree → Nat
  | .mk _ _ _ p _ _ => p

def Tree.text : Tree → String
  | .mk _ _ _ _ x _ => x

def Tree.children : Tree → List Tree
  | .mk _ _ _ _ _ c => c

/-- A tree node with the text field stripped, as produced by removing
the text field from every node before prompt construction. -/
inductive TreeNT where
  | mk (node_id title summary : String) (page_index : Nat)
       (children : List TreeNT)

mutual

/-- Modelled from the spec: pageindex.utils.remove_fields with
fields equal to the singleton text is not under src/; per the spec it
strips the text field from every node of the tree, leaving titles and
summaries only. -/
def remove_fields : Tree → TreeNT
  | .mk i t s p _ cs => TreeNT.mk i t s p (remove_fields_forest cs)

def remove_fields_forest : List Tree → List TreeNT
  | [] => []
  | c :: cs => remove_fields c :: remove_fields_forest cs

end

mutual

/-- Preorder flattening of a tree into the list of all of its nodes. -/
def flattenTree : Tree → List Tree
  | .mk i t s p x cs => Tree.mk i t s p x cs :: flattenForest cs

def flattenForest : List Tree → List Tree
  | [] => []
  | c :: cs => flattenTree c ++ flattenForest cs

end

/-- Modelled from the spec: pageindex.utils.create_node_mapping is not
under src/; per the spec it is a flattened id-to-node index built from
the full tree (including text). -/
def create_node_mapping (t : Tree) : List (String × Tree) :=
  (flattenTree t).map (fun n => (n.node_id, n))

mutual

/-- Serialization of a stripped tree, standing in for
json.dumps(tree_without_text, indent=2) in the search prompt. -/
def dumpNT : TreeNT → String
  | .mk i t s p cs =>
    "node_id: " ++ i ++ " title: " ++ t ++ " summary: " ++ s
      ++ " page_index: " ++ toString p ++ " nodes: [" ++ dumpForest cs ++ "]"

/-- Serialization of a list of stripped trees. -/
def dumpForest : List TreeNT → String
  | [] => ""
  | c :: cs => dumpNT c ++ "; " ++ dumpForest cs

end

/-- The node-selection prompt of chat_with_pdf (routes.py lines 151-167):
the question plus the serialized tree with the text field stripped. -/
def mkSearchPrompt (message : String) (tree_without_text : TreeNT) : String :=
  "You are given a question and a tree structure of a document. "
    ++ "Each node contains a node id, node title, and a corresponding summary. "
    ++ "Your task is to find all nodes that are likely to contain the answer to the question. "
    ++ "Question: " ++ message
    ++ " Document tree structure: " ++ dumpNT tree_without_text
    ++ " Please reply in JSON with keys thinking and node_list. "
    ++ "Directly return the final JSON structure. Do not output anything else."

/-- The answer-synthesis prompt of chat_with_pdf (routes.py lines 190-197):
the question plus the assembled context. -/
def mkAnswerPrompt (message context : String) : String :=
  "Answer the question based on the context: "
    ++ "Question: " ++ message
    ++ " Context: " ++ context
    ++ " Provide a clear, concise answer based only on the context provided."

/-- Python str.join over a non-empty separator, as used at routes.py
line 185 to assemble the retrieved context. -/
def pyJoin (sep : String) : List String → String
  | [] => ""
  | [x] => x
  | x :: y :: t => x ++ sep ++ pyJoin sep (y :: t)

/-! LLM call wrapper, following src/core/llm_engine.py. -/

/-- Outcome of one outbound HTTP attempt: either a response carrying a
status code, the extracted message content (meaningful when the status
is 200) and the raw body, or a raised transport exception. -/
inductive HttpResponse where
  | resp (status : Nat) (content : String) (body : String)
  | exn (msg : String)

/-- Value returned by the LLM wrapper: either the generated text or
the error-indicator dictionary with key error. -/
inductive LLMResult where
  | text (s : String)
  | error (e : String)
deriving DecidableEq

/-- Models isinstance(result, dict) and "error" in result. -/
def LLMResult.hasErrorKey : LLMResult → Bool
  | .text _ => false
  | .error _ => true

/-- Embedding of make_async_api_call (llm_engine.py lines 16-37): on
status 200 return the message content; on any other status return an
error dictionary naming the status; on a transport exception return an
error dictionary with the exception text.  The url and token arguments
shape the outbound request but not the branching on the outcome. -/
def make_async_api_call (_url _token : String) (r : HttpResponse) : LLMResult :=
  match r with
  | .resp status content _ =>
    if status = 200 then LLMResult.text content
    else LLMResult.error ("API call failed with status " ++ toString status)
  | .exn msg => LLMResult.error msg

/-- Module-level configuration of llm_engine.py: URL_CUSTOM_LLM_APILOGY
and TOKEN_CUSTOM_LLM_APILOGY. -/
structure LLMModule where
  URL_CUSTOM_LLM_APILOGY : String
  TOKEN_CUSTOM_LLM_APILOGY : String

/-- Embedding of telkomllm_call (llm_engine.py lines 39-72): one call
through make_async_api_call with the module url and token; if the
result carries the error key, one fallback call against the same
module url and token.  The transport oracle gives the HTTP outcome of
attempt number n; the returned list records the url and token used by
each attempt, in order. -/
def telkomllm_call (m : LLMModule) (transport : Nat → HttpResponse) :
    LLMResult × List (String × String) :=
  let url := m.URL_CUSTOM_LLM_APILOGY
  let token := m.TOKEN_CUSTOM_LLM_APILOGY
  let result := make_async_api_call url token (transport 0)
  if result.hasErrorKey then
    (make_async_api_call m.URL_CUSTOM_LLM_APILOGY m.TOKEN_CUSTOM_LLM_APILOGY (transport 1),
      [(url, token), (m.URL_CUSTOM_LLM_APILOGY, m.TOKEN_CUSTOM_LLM_APILOGY)])
  else
    (result, [(url, token)])

/-! Chat flow, following chat_with_pdf in src/core/routes.py. -/

/-- One record of the in-memory pdf_storage dictionary
(routes.py lines 94-99). -/
structure PdfRecord where
  filename : String
  file_path : String
  doc_id : String
  upload_time : Nat
deriving DecidableEq

/-- Request body of the chat endpoint. -/
structure ChatRequest where
  message : String
  pdf_id : String
  session_id : Option String
deriving DecidableEq

/-- Shape required of the node-selection LLM output once parsed as
JSON: the keys thinking and node_list (routes.py lines 161-165). -/
structure SelectionJson where
  thinking : String
  node_list : List String
deriving DecidableEq

/-- Observable outcome of a chat request: a successful response or an
HTTPException with a status code and detail. -/
inductive ChatOutcome where
  | ok (response session_id : String)
  | httpError (status : Nat) (detail : String)
deriving DecidableEq

/-- Environment of one chat request: the pdf_storage dictionary and
the external collaborators (readiness predicate and tree fetch of the
PageIndex client, json.loads on free text, and telkomllm_call viewed
as a prompt-to-result oracle). -/
structure ChatEnv where
  pdf_storage : List (String × PdfRecord)
  isReady : String → Bool
  getTree : String → Tree
  parseJson : String → Option SelectionJson
  llm : String → LLMResult
  fresh_uuid : String

/-- Result of json.loads applied to the value returned by the first
telkomllm_call (routes.py line 175): a returned error dictionary is
not a string, so json.loads raises on it, and a text result parses
only when it is valid JSON of the required shape. -/
def chatSelection (env : ChatEnv) : LLMResult → Option SelectionJson
  | .text s => env.parseJson s
  | .error _ => none

/-- Resolution loop of routes.py lines 180-185: look up each id of
node_list in the node map, aborting with a KeyError on the first
missing id. -/
def resolveNodes (node_map : List (String × Tree)) : List String → Option (List Tree)
  | [] => some []
  | nid :: rest =>
    match lookupA node_map nid with
    | none => none
    | some n =>
      match resolveNodes node_map rest with
      | none => none
      | some ns => some (n :: ns)

/-- Embedding of chat_with_pdf (routes.py lines 116-218).  Returns the
observable outcome together with the list of prompts sent to
telkomllm_call, in order.  Failures inside the try block are caught by
the blanket except and surfaced as HTTPException 500. -/
def chat_with_pdf (env : ChatEnv) (req : ChatRequest) : ChatOutcome × List String :=
  match lookupA env.pdf_storage req.pdf_id with
  | none => (ChatOutcome.httpError 404 "PDF not found", [])
  | some pdf_info =>
    let doc_id := pdf_info.doc_id
    if env.isReady doc_id then
      let tree := env.getTree doc_id
      let session_id :=
        match req.session_id with
        | some s => if s = "" then env.fresh_uuid else s
        | none => env.fresh_uuid
      let tree_without_text := remove_fields tree
      let search_prompt := mkSearchPrompt req.message tree_without_text
      let tree_search_result := env.llm search_prompt
      let node_map := create_node_mapping tree
      match chatSelection env tree_search_result with
      | none =>
        (ChatOutcome.httpError 500 "Error processing query: selection JSON parse failure",
          [search_prompt])
      | some sel =>
        match resolveNodes node_map sel.node_list with
        | none =>
          (ChatOutcome.httpError 500 "Error processing query: KeyError", [search_prompt])
        | some nodes =>
          let relevant_content := pyJoin "\n\n" (nodes.map Tree.text)
          let answer_prompt := mkAnswerPrompt req.message relevant_content
          match env.llm answer_prompt with
          | LLMResult.error e =>
            (ChatOutcome.httpError 500 ("Error processing query: " ++ e),
              [search_prompt, answer_prompt])
          | LLMResult.text a =>
            (ChatOutcome.ok a session_id, [search_prompt, answer_prompt])
    else
      (ChatOutcome.httpError 400 "Document is still processing, please try again later.", [])

/-! Upload and delete handlers, following upload_pdf and delete_pdf in
src/core/routes.py. -/

/-- Observable side effects of the upload and delete handlers, in
program order. -/
inductive Ev where
  | fileWrite (path : String)
  | submitDocument (path : String)
  | fileRemove (path : String)
deriving DecidableEq

/-- Mutable state touched by the handlers: the set of files on disk
and the two module-level dictionaries pdf_storage and doc_storage. -/
structure Store where
  files : List String
  pdf_storage : List (String × PdfRecord)
  doc_storage : List (String × String)

/-- Environment of one upload request: the multipart filename, the
byte length of the uploaded content, the configured limits and storage
path, the freshly generated uuid, and the outcome of
pi_client.submit_document (a doc_id, or a raised exception text). -/
structure UploadEnv where
  filename : String
  content_len : Nat
  max_file_size : Nat
  storage_path : String
  pdf_id : String
  upload_time : Nat
  submit : Except String String

/-- Observable outcome of an upload request. -/
inductive UploadOutcome where
  | ok (pdf_id filename status : String)
  | httpError (status : Nat) (detail : String)
deriving DecidableEq

/-- Models file.filename.lower().endswith(".pdf") at routes.py line 61,
computed on the character sequence of the name (ASCII lowering). -/
def endsWithPdf (name : String) : Bool :=
  ".pdf".data.isSuffixOf (name.data.map Char.toLower)

/-- Models os.path.join(settings.PDF_STORAGE_PATH, pdf_id + ".pdf") at
routes.py line 73. -/
def os_path_join (a b : String) : String :=
  a ++ "/" ++ b

/-- Writing a file: the path is on disk afterwards. -/
def writeFile (files : List String) (path : String) : List String :=
  if path ∈ files then files else path :: files

/-- Removing a file from disk. -/
def removeFile (files : List String) (path : String) : List String :=
  files.filter (fun p => p ≠ path)

/-- Embedding of upload_pdf (routes.py lines 54-114): validate the
extension, then the size; generate the path from the storage path and
the fresh pdf_id; write the file; submit it to the document service;
on success record doc_storage then pdf_storage and return success; on
a processing exception remove the written file (if it exists) and
surface HTTPException 500. -/
def upload_pdf (env : UploadEnv) (st : Store) : UploadOutcome × Store × List Ev :=
  if ¬ endsWithPdf env.filename then
    (UploadOutcome.httpError 400 "Only PDF files are allowed", st, [])
  else if env.max_file_size < env.content_len then
    (UploadOutcome.httpError 400 "File size exceeds maximum allowed size", st, [])
  else
    let file_path := os_path_join env.storage_path (env.pdf_id ++ ".pdf")
    let st1 := Store.mk (writeFile st.files file_path) st.pdf_storage st.doc_storage
    match env.submit with
    | .ok doc_id =>
      let st2 := Store.mk st1.files st1.pdf_storage (insertA st1.doc_storage env.pdf_id doc_id)
      let st3 := Store.mk st2.files
        (insertA st2.pdf_storage env.pdf_id
          (PdfRecord.mk env.filename file_path doc_id env.upload_time))
        st2.doc_storage
      (UploadOutcome.ok env.pdf_id env.filename "success", st3,
        [Ev.fileWrite file_path, Ev.submitDocument file_path])
    | .error e =>
      let st2 :=
        if file_path ∈ st1.files then
          Store.mk (removeFile st1.files file_path) st1.pdf_storage st1.doc_storage
        else st1
      (UploadOutcome.httpError 500 ("Error processing PDF: " ++ e), st2,
        [Ev.fileWrite file_path, Ev.submitDocument file_path, Ev.fileRemove file_path])

/-- Observable outcome of a delete request. -/
inductive DeleteOutcome where
  | ok (message : String)
  | httpError (status : Nat) (detail : String)
deriving DecidableEq

/-- Embedding of delete_pdf (routes.py lines 221-244): 404 when the id
is unknown; otherwise remove the backing file when it exists, then
delete the pdf_storage entry, then the doc_storage entry when
present. -/
def delete_pdf (pdf_id : String) (st : Store) : DeleteOutcome × Store :=
  match lookupA st.pdf_storage pdf_id with
  | none => (DeleteOutcome.httpError 404 "PDF not found", st)
  | some record =>
    let st1 :=
      if record.file_path ∈ st.files then
        Store.mk (removeFile st.files record.file_path) st.pdf_storage st.doc_storage
      else st
    let st2 := Store.mk st1.files (removeA st1.pdf_storage pdf_id) st1.doc_storage
    let st3 :=
      if containsA st2.doc_storage pdf_id then
        Store.mk st2.files st2.pdf_storage (removeA st2.doc_storage pdf_id)
      else st2
    (DeleteOutcome.ok ("PDF " ++ pdf_id ++ " deleted successfully"), st3)

/-- Store invariant of the two module-level dictionaries: every key of
pdf_storage is a key of doc_storage and conversely, and the doc_storage
value at each key equals the doc_id field of the pdf_storage record at
that key.  The single equation states exactly that. -/
def Inv (st : Store) : Prop :=
  ∀ k : String, lookupA st.doc_storage k = (lookupA st.pdf_storage k).map PdfRecord.doc_id

/-! Helper lemmas. -/

theorem lookupA_cons {α : Type} (k : String) (v : α) (t : List (String × α)) (key : String) :
    lookupA ((k, v) :: t) key = if k = key then some v else lookupA t key := rfl

theorem lookupA_removeA {α : Type} (l : List (String × α)) (k key : String) :
    lookupA (removeA l k) key = if key = k then none else lookupA l key := by
  induction l with
  | nil => simp [removeA, lookupA]
  | cons p t ih =>
    obtain ⟨a, v⟩ := p
    by_cases h1 : a = k <;> by_cases h2 : key = k
    · simp_all [removeA, lookupA]
    · have h3 : ¬ (k = key) := fun h => h2 h.symm
      simp_all [removeA, lookupA]
    · simp_all [removeA, lookupA]
    · simp_all [removeA, lookupA]

theorem lookupA_map_node (l : List Tree) (h : (l.map Tree.node_id).Nodup)
    (n : Tree) (hn : n ∈ l) :
    lookupA (l.map (fun m => (m.node_id, m))) n.node_id = some n := by
  induction l with
  | nil => cases hn
  | cons a t ih =>
    simp only [List.map_cons] at h
    rw [List.map_cons, lookupA_cons]
    rcases List.mem_cons.mp hn with h1 | h1
    · subst h1
      rw [if_pos rfl]
    · have hna : a.node_id ≠ n.node_id := by
        intro he
        have hmem : n.node_id ∈ t.map Tree.node_id := List.mem_map_of_mem _ h1
        rw [← he] at hmem
        exact (List.nodup_cons.mp h).1 hmem
      rw [if_neg hna]
      exact ih (List.nodup_cons.mp h).2 h1

theorem create_node_mapping_lookup (t : Tree)
    (h : ((flattenTree t).map Tree.node_id).Nodup) :
    ∀ n ∈ flattenTree t, lookupA (create_node_mapping t) n.node_id = some n :=
  fun n hn => lookupA_map_node (flattenTree t) h n hn

/-- Suffix form of a separated join: the separator before every item. -/
def pyJoinSuffix (sep : String) : List String → String
  | [] => ""
  | a :: as => sep ++ a ++ pyJoinSuffix sep as

theorem intercalate_go_eq (sep : String) (l : List String) (acc : String) :
    String.intercalate.go acc sep l = acc ++ pyJoinSuffix sep l := by
  induction l generalizing acc with
  | nil => simp [String.intercalate.go, pyJoinSuffix]
  | cons a as ih =>
    simp [String.intercalate.go, pyJoinSuffix, ih, String.append_assoc]

theorem pyJoin_cons_eq (sep a : String) (as : List String) :
    pyJoin sep (a :: as) = a ++ pyJoinSuffix sep as := by
  induction as generalizing a with
  | nil => simp [pyJoin, pyJoinSuffix]
  | cons b t ih => simp [pyJoin, pyJoinSuffix, ih, String.append_assoc]

/-- Python str.join agrees with the Mathlib separator-concatenation
String.intercalate, which is the form in which the spec describes the
assembled context. -/
theorem pyJoin_eq_intercalate (sep : String) (l : List String) :
    pyJoin sep l = String.intercalate sep l := by
  cases l with
  | nil => rfl
  | cons a as => simp [String.intercalate, intercalate_go_eq, pyJoin_cons_eq]

theorem resolveNodes_eq_none (node_map : List (String × Tree)) (ids : List String)
    (h : ∃ nid ∈ ids, lookupA node_map nid = none) :
    resolveNodes node_map ids = none := by
  induction ids with
  | nil => rcases h with ⟨nid, hm, _⟩; cases hm
  | cons a t ih =>
    rcases h with ⟨nid, hm, hl⟩
    rcases List.mem_cons.mp hm with h1 | h1
    · subst h1
      simp [resolveNodes, hl]
    · cases hla : lookupA node_map a with
      | none => simp [resolveNodes, hla]
      | some n => simp [resolveNodes, hla, ih ⟨nid, h1, hl⟩]

theorem mem_writeFile (files : List String) (path : String) :
    path ∈ writeFile files path := by
  unfold writeFile
  split
  · assumption
  · exact List.mem_cons_self _ _

/-! Claim theorems. -/

/-- Claim C1: in the chat flow the node-selection prompt (the first
prompt sent to the LLM) is built from the tree with the text field
stripped from every node, while node resolution goes through the
flattened id-to-node index built from the full tree, so that every
node id present in the tree resolves to that node (and hence to its
full text). -/
theorem C1_selection_prompt_stripped_resolution_full
    (env : ChatEnv) (req : ChatRequest) (info : PdfRecord)
    (hfound : lookupA env.pdf_storage req.pdf_id = some info)
    (hready : env.isReady info.doc_id = true)
    (huniq : ((flattenTree (env.getTree info.doc_id)).map Tree.node_id).Nodup) :
    (chat_with_pdf env req).2.head? =
      some (mkSearchPrompt req.message (remove_fields (env.getTree info.doc_id)))
    ∧ ∀ n ∈ flattenTree (env.getTree info.doc_id),
        lookupA (create_node_mapping (env.getTree info.doc_id)) n.node_id = some n := by
  constructor
  · simp only [chat_with_pdf, hfound, hready, if_true]
    split
    · rfl
    · split
      · rfl
      · split <;> rfl
  · exact create_node_mapping_lookup _ huniq

/-- Witness for C1 at a concrete environment and request. -/
def exNodeA : Tree := Tree.mk "A" "ta" "sa" 1 "cat" []

/-- Second leaf node of the concrete example tree. -/
def exNodeB : Tree := Tree.mk "B" "tb" "sb" 2 "dog" []

/-- Concrete example tree with root R and children A and B. -/
def exTree : Tree := Tree.mk "R" "root" "sum" 0 "roottext" [exNodeA, exNodeB]

/-- Concrete pdf_storage record for the example. -/
def exRecord : PdfRecord := PdfRecord.mk "file.pdf" "./uploaded_pdfs/p1.pdf" "d1" 0

/-- Concrete chat request for the example. -/
def exReq : ChatRequest := ChatRequest.mk "What is this?" "p1" none

/-- Concrete parsed node-selection output listing A then B. -/
def exSelection : SelectionJson := SelectionJson.mk "think" ["A", "B"]

/-- Concrete chat environment whose selection output parses to
exSelection and whose LLM always answers with text. -/
def exEnvOk : ChatEnv :=
  ChatEnv.mk [("p1", exRecord)] (fun _ => true) (fun _ => exTree)
    (fun _ => some exSelection) (fun _ => LLMResult.text "ans") "uuid-1"

theorem C1_witness :
    (lookupA exEnvOk.pdf_storage exReq.pdf_id = some exRecord
      ∧ exEnvOk.isReady exRecord.doc_id = true
      ∧ ((flattenTree (exEnvOk.getTree exRecord.doc_id)).map Tree.node_id).Nodup)
    ∧ ((chat_with_pdf exEnvOk exReq).2.head? =
        some (mkSearchPrompt exReq.message (remove_fields (exEnvOk.getTree exRecord.doc_id)))
      ∧ ∀ n ∈ flattenTree (exEnvOk.getTree exRecord.doc_id),
          lookupA (create_node_mapping (exEnvOk.getTree exRecord.doc_id)) n.node_id = some n) :=
  ⟨⟨rfl, rfl, by decide⟩,
    C1_selection_prompt_stripped_resolution_full exEnvOk exReq exRecord rfl rfl (by decide)⟩

/-- Claim C2: when the node-selection output parses and every listed
id resolves, the context handed to the answer-synthesis prompt equals
the concatenation of the resolved nodes' text fields in node_list
order, separated by a blank line. -/
theorem C2_context_is_joined_texts
    (env : ChatEnv) (req : ChatRequest) (info : PdfRecord) (sel : SelectionJson)
    (nodes : List Tree)
    (hfound : lookupA env.pdf_storage req.pdf_id = some info)
    (hready : env.isReady info.doc_id = true)
    (hsel : chatSelection env (env.llm (mkSearchPrompt req.message
      (remove_fields (env.getTree info.doc_id)))) = some sel)
    (hres : resolveNodes (create_node_mapping (env.getTree info.doc_id)) sel.node_list
      = some nodes) :
    (chat_with_pdf env req).2.getLast? =
      some (mkAnswerPrompt req.message
        (String.intercalate "\n\n" (nodes.map Tree.text))) := by
  simp only [chat_with_pdf, hfound, hready, if_true, hsel, hres]
  rw [pyJoin_eq_intercalate]
  split <;> rfl

theorem C2_witness :
    (lookupA exEnvOk.pdf_storage exReq.pdf_id = some exRecord
      ∧ exEnvOk.isReady exRecord.doc_id = true
      ∧ chatSelection exEnvOk (exEnvOk.llm (mkSearchPrompt exReq.message
          (remove_fields (exEnvOk.getTree exRecord.doc_id)))) = some exSelection
      ∧ resolveNodes (create_node_mapping (exEnvOk.getTree exRecord.doc_id))
          exSelection.node_list = some [exNodeA, exNodeB])
    ∧ (chat_with_pdf exEnvOk exReq).2.getLast? =
        some (mkAnswerPrompt exReq.message "cat\n\ndog") := by
  refine ⟨⟨rfl, rfl, rfl, rfl⟩, ?_⟩
  have h := C2_context_is_joined_texts exEnvOk exReq exRecord exSelection [exNodeA, exNodeB]
    rfl rfl rfl rfl
  rw [h]
  decide

/-- Claim C3: when the node-selection LLM output is not parseable as
JSON, the request fails as a hard 500 error, the answer-synthesis call
is never invoked, and the malformed selection call is not retried: the
list of prompts sent to the LLM is exactly the one selection prompt. -/
theorem C3_malformed_selection_hard_error
    (env : ChatEnv) (req : ChatRequest) (info : PdfRecord)
    (hfound : lookupA env.pdf_storage req.pdf_id = some info)
    (hready : env.isReady info.doc_id = true)
    (hsel : chatSelection env (env.llm (mkSearchPrompt req.message
      (remove_fields (env.getTree info.doc_id)))) = none) :
    (∃ d, (chat_with_pdf env req).1 = ChatOutcome.httpError 500 d)
    ∧ (chat_with_pdf env req).2 =
        [mkSearchPrompt req.message (remove_fields (env.getTree info.doc_id))] := by
  simp only [chat_with_pdf, hfound, hready, if_true, hsel]
  exact ⟨⟨_, rfl⟩, trivial⟩

/-- Concrete chat environment whose selection output does not parse as
JSON. -/
def exEnvBadJson : ChatEnv :=
  ChatEnv.mk [("p1", exRecord)] (fun _ => true) (fun _ => exTree)
    (fun _ => none) (fun _ => LLMResult.text "not json") "uuid-1"

theorem C3_witness :
    chatSelection exEnvBadJson (exEnvBadJson.llm (mkSearchPrompt exReq.message
        (remove_fields (exEnvBadJson.getTree exRecord.doc_id)))) = none
    ∧ ((∃ d, (chat_with_pdf exEnvBadJson exReq).1 = ChatOutcome.httpError 500 d)
      ∧ (chat_with_pdf exEnvBadJson exReq).2 =
          [mkSearchPrompt exReq.message (remove_fields (exEnvBadJson.getTree exRecord.doc_id))]) :=
  ⟨rfl, C3_malformed_selection_hard_error exEnvBadJson exReq exRecord rfl rfl rfl⟩

/-- Claim C4: when the parsed node_list contains an id absent from the
id-to-node index, the whole request fails as a 500 error (the KeyError
is caught by the blanket handler) and the answer-synthesis call is
never made: the prompts sent to the LLM are exactly the one selection
prompt. -/
theorem C4_missing_node_id_fails_request
    (env : ChatEnv) (req : ChatRequest) (info : PdfRecord) (sel : SelectionJson)
    (hfound : lookupA env.pdf_storage req.pdf_id = some info)
    (hready : env.isReady info.doc_id = true)
    (hsel : chatSelection env (env.llm (mkSearchPrompt req.message
      (remove_fields (env.getTree info.doc_id)))) = some sel)
    (hmiss : ∃ nid ∈ sel.node_list,
      lookupA (create_node_mapping (env.getTree info.doc_id)) nid = none) :
    (∃ d, (chat_with_pdf env req).1 = ChatOutcome.httpError 500 d)
    ∧ (chat_with_pdf env req).2 =
        [mkSearchPrompt req.message (remove_fields (env.getTree info.doc_id))] := by
  have hres := resolveNodes_eq_none _ _ hmiss
  simp only [chat_with_pdf, hfound, hready, if_true, hsel, hres]
  exact ⟨⟨_, rfl⟩, trivial⟩

/-- Concrete parsed node-selection output listing an id absent from
the example tree. -/
def exSelectionBad : SelectionJson := SelectionJson.mk "think" ["A", "Z"]

/-- Concrete chat environment whose selection output references the
missing node id Z. -/
def exEnvBadId : ChatEnv :=
  ChatEnv.mk [("p1", exRecord)] (fun _ => true) (fun _ => exTree)
    (fun _ => some exSelectionBad) (fun _ => LLMResult.text "ans") "uuid-1"

theorem C4_witness :
    (chatSelection exEnvBadId (exEnvBadId.llm (mkSearchPrompt exReq.message
        (remove_fields (exEnvBadId.getTree exRecord.doc_id)))) = some exSelectionBad
      ∧ ∃ nid ∈ exSelectionBad.node_list,
          lookupA (create_node_mapping (exEnvBadId.getTree exRecord.doc_id)) nid = none)
    ∧ ((∃ d, (chat_with_pdf exEnvBadId exReq).1 = ChatOutcome.httpError 500 d)
      ∧ (chat_with_pdf exEnvBadId exReq).2 =
          [mkSearchPrompt exReq.message (remove_fields (exEnvBadId.getTree exRecord.doc_id))]) :=
  ⟨⟨rfl, ⟨"Z", by decide, rfl⟩⟩,
    C4_missing_node_id_fails_request exEnvBadId exReq exRecord exSelectionBad rfl rfl rfl
      ⟨"Z", by decide, rfl⟩⟩

/-- Claim C5: a chat request against a known pdf_id whose backing
document is not yet ready yields HTTPException 400 with the distinct
still-processing detail, and the list of prompts sent to the LLM is
empty. -/
theorem C5_still_processing_no_llm_calls
    (env : ChatEnv) (req : ChatRequest) (info : PdfRecord)
    (hfound : lookupA env.pdf_storage req.pdf_id = some info)
    (hnotready : env.isReady info.doc_id = false) :
    chat_with_pdf env req =
      (ChatOutcome.httpError 400 "Document is still processing, please try again later.",
        []) := by
  simp [chat_with_pdf, hfound, hnotready]

/-- Concrete chat environment whose document is not ready. -/
def exEnvNotReady : ChatEnv :=
  ChatEnv.mk [("p1", exRecord)] (fun _ => false) (fun _ => exTree)
    (fun _ => some exSelection) (fun _ => LLMResult.text "ans") "uuid-1"

theorem C5_witness :
    (lookupA exEnvNotReady.pdf_storage exReq.pdf_id = some exRecord
      ∧ exEnvNotReady.isReady exRecord.doc_id = false)
    ∧ chat_with_pdf exEnvNotReady exReq =
        (ChatOutcome.httpError 400 "Document is still processing, please try again later.",
          []) :=
  ⟨⟨rfl, rfl⟩, C5_still_processing_no_llm_calls exEnvNotReady exReq exRecord rfl rfl⟩

/-- Claim C6: an upload whose filename does not end in ".pdf"
(case-insensitively) or whose content exceeds the configured maximum
size is rejected with HTTPException 400 before any file write: no
event occurs and the store is unchanged. -/
theorem C6_upload_validation_no_side_effects
    (env : UploadEnv) (st : Store)
    (hbad : endsWithPdf env.filename = false ∨ env.max_file_size < env.content_len) :
    (∃ d, (upload_pdf env st).1 = UploadOutcome.httpError 400 d)
    ∧ (upload_pdf env st).2.1 = st
    ∧ (upload_pdf env st).2.2 = [] := by
  rcases hbad with h | h
  · simp [upload_pdf, h]
  · by_cases he : endsWithPdf env.filename
    · simp [upload_pdf, he, h]
    · simp [upload_pdf, he]

/-- Concrete upload environment with a non-pdf filename. -/
def exUploadBadName : UploadEnv :=
  UploadEnv.mk "notes.txt" 10 100 "./uploaded_pdfs" "p1" 0 (Except.ok "d1")

theorem C6_witness :
    (endsWithPdf exUploadBadName.filename = false
      ∨ exUploadBadName.max_file_size < exUploadBadName.content_len)
    ∧ ((∃ d, (upload_pdf exUploadBadName (Store.mk [] [] [])).1 = UploadOutcome.httpError 400 d)
      ∧ (upload_pdf exUploadBadName (Store.mk [] [] [])).2.1 = Store.mk [] [] []
      ∧ (upload_pdf exUploadBadName (Store.mk [] [] [])).2.2 = []) :=
  ⟨Or.inl (by decide),
    C6_upload_validation_no_side_effects exUploadBadName (Store.mk [] [] [])
      (Or.inl (by decide))⟩

/-- Claim C7: when document submission raises after the file has been
written, the written file is removed again, neither dictionary gains a
record, and the failure is surfaced as HTTPException 500; the event
trace shows write, submit, then remove of the one generated path. -/
theorem C7_cleanup_on_processing_failure
    (env : UploadEnv) (st : Store) (e : String)
    (hname : endsWithPdf env.filename = true)
    (hsize : env.content_len ≤ env.max_file_size)
    (hsubmit : env.submit = Except.error e) :
    (∃ d, (upload_pdf env st).1 = UploadOutcome.httpError 500 d)
    ∧ (upload_pdf env st).2.1.pdf_storage = st.pdf_storage
    ∧ (upload_pdf env st).2.1.doc_storage = st.doc_storage
    ∧ os_path_join env.storage_path (env.pdf_id ++ ".pdf") ∉ (upload_pdf env st).2.1.files
    ∧ (upload_pdf env st).2.2 =
        [Ev.fileWrite (os_path_join env.storage_path (env.pdf_id ++ ".pdf")),
          Ev.submitDocument (os_path_join env.storage_path (env.pdf_id ++ ".pdf")),
          Ev.fileRemove (os_path_join env.storage_path (env.pdf_id ++ ".pdf"))] := by
  have hlt : ¬ env.max_file_size < env.content_len := Nat.not_lt.mpr hsize
  have hrun : upload_pdf env st =
      (UploadOutcome.httpError 500 ("Error processing PDF: " ++ e),
        Store.mk
          (removeFile (writeFile st.files (os_path_join env.storage_path (env.pdf_id ++ ".pdf")))
            (os_path_join env.storage_path (env.pdf_id ++ ".pdf")))
          st.pdf_storage st.doc_storage,
        [Ev.fileWrite (os_path_join env.storage_path (env.pdf_id ++ ".pdf")),
          Ev.submitDocument (os_path_join env.storage_path (env.pdf_id ++ ".pdf")),
          Ev.fileRemove (os_path_join env.storage_path (env.pdf_id ++ ".pdf"))]) := by
    simp [upload_pdf, hname, hlt, hsubmit, mem_writeFile]
  refine ⟨⟨"Error processing PDF: " ++ e, by rw [hrun]⟩, by rw [hrun], by rw [hrun], ?_,
    by rw [hrun]⟩
  rw [hrun]
  simp [removeFile, List.mem_filter]

/-- Concrete upload environment whose document submission raises. -/
def exUploadFail : UploadEnv :=
  UploadEnv.mk "report.pdf" 10 100 "./uploaded_pdfs" "p1" 0 (Except.error "boom")

theorem C7_witness :
    (endsWithPdf exUploadFail.filename = true
      ∧ exUploadFail.content_len ≤ exUploadFail.max_file_size
      ∧ exUploadFail.submit = Except.error "boom")
    ∧ ((∃ d, (upload_pdf exUploadFail (Store.mk [] [] [])).1 = UploadOutcome.httpError 500 d)
      ∧ (upload_pdf exUploadFail (Store.mk [] [] [])).2.1.pdf_storage = []
      ∧ (upload_pdf exUploadFail (Store.mk [] [] [])).2.1.doc_storage = []
      ∧ os_path_join exUploadFail.storage_path (exUploadFail.pdf_id ++ ".pdf")
          ∉ (upload_pdf exUploadFail (Store.mk [] [] [])).2.1.files
      ∧ (upload_pdf exUploadFail (Store.mk [] [] [])).2.2 =
          [Ev.fileWrite (os_path_join exUploadFail.storage_path (exUploadFail.pdf_id ++ ".pdf")),
            Ev.submitDocument (os_path_join exUploadFail.storage_path (exUploadFail.pdf_id ++ ".pdf")),
            Ev.fileRemove (os_path_join exUploadFail.storage_path (exUploadFail.pdf_id ++ ".pdf"))]) :=
  ⟨⟨by decide, by decide, rfl⟩,
    C7_cleanup_on_processing_failure exUploadFail (Store.mk [] [] []) "boom"
      (by decide) (by decide) rfl⟩

/-- Claim C8: the LLM call wrapper returns the error-indicator value
(never an exception) for any non-200 status and for any transport
exception, and whenever the first attempt yields an error indicator,
telkomllm_call performs exactly one retry against the same configured
endpoint and credentials and returns its outcome; without an error
indicator no retry occurs. -/
theorem C8_error_indicator_and_single_retry
    (m : LLMModule) (transport : Nat → HttpResponse) :
    (∀ url token status content body, status ≠ 200 →
        make_async_api_call url token (HttpResponse.resp status content body)
          = LLMResult.error ("API call failed with status " ++ toString status))
    ∧ (∀ url token msg,
        make_async_api_call url token (HttpResponse.exn msg) = LLMResult.error msg)
    ∧ ((make_async_api_call m.URL_CUSTOM_LLM_APILOGY m.TOKEN_CUSTOM_LLM_APILOGY
          (transport 0)).hasErrorKey = true →
        telkomllm_call m transport =
          (make_async_api_call m.URL_CUSTOM_LLM_APILOGY m.TOKEN_CUSTOM_LLM_APILOGY
            (transport 1),
            [(m.URL_CUSTOM_LLM_APILOGY, m.TOKEN_CUSTOM_LLM_APILOGY),
              (m.URL_CUSTOM_LLM_APILOGY, m.TOKEN_CUSTOM_LLM_APILOGY)]))
    ∧ ((make_async_api_call m.URL_CUSTOM_LLM_APILOGY m.TOKEN_CUSTOM_LLM_APILOGY
          (transport 0)).hasErrorKey = false →
        telkomllm_call m transport =
          (make_async_api_call m.URL_CUSTOM_LLM_APILOGY m.TOKEN_CUSTOM_LLM_APILOGY
            (transport 0),
            [(m.URL_CUSTOM_LLM_APILOGY, m.TOKEN_CUSTOM_LLM_APILOGY)])) := by
  refine ⟨?_, ?_, ?_, ?_⟩
  · intro url token status content body h
    simp [make_async_api_call, h]
  · intro url token msg
    rfl
  · intro h
    simp [telkomllm_call, h]
  · intro h
    simp [telkomllm_call, h]

/-- Concrete module configuration for the retry example. -/
def exLLMModule : LLMModule := LLMModule.mk "http://llm.example" "token-1"

/-- Concrete transport whose every attempt fails with status 500. -/
def exTransport : Nat → HttpResponse := fun _ => HttpResponse.resp 500 "" "oops"

theorem C8_witness :
    make_async_api_call "u" "t" (HttpResponse.resp 500 "c" "b")
        = LLMResult.error ("API call failed with status " ++ toString 500)
    ∧ make_async_api_call "u" "t" (HttpResponse.exn "down") = LLMResult.error "down"
    ∧ (make_async_api_call exLLMModule.URL_CUSTOM_LLM_APILOGY
          exLLMModule.TOKEN_CUSTOM_LLM_APILOGY (exTransport 0)).hasErrorKey = true
    ∧ telkomllm_call exLLMModule exTransport =
        (make_async_api_call exLLMModule.URL_CUSTOM_LLM_APILOGY
            exLLMModule.TOKEN_CUSTOM_LLM_APILOGY (exTransport 1),
          [(exLLMModule.URL_CUSTOM_LLM_APILOGY, exLLMModule.TOKEN_CUSTOM_LLM_APILOGY),
            (exLLMModule.URL_CUSTOM_LLM_APILOGY, exLLMModule.TOKEN_CUSTOM_LLM_APILOGY)]) :=
  ⟨(C8_error_indicator_and_single_retry exLLMModule exTransport).1 "u" "t" 500 "c" "b"
      (by decide),
    (C8_error_indicator_and_single_retry exLLMModule exTransport).2.1 "u" "t" "down",
    rfl,
    (C8_error_indicator_and_single_retry exLLMModule exTransport).2.2.1 rfl⟩

/-- Claim C9: for accepted uploads the on-disk path is
storage_path/pdf_id.pdf, built only from the configured storage path
and the freshly generated id: two accepted uploads differing only in
filename produce identical event traces and identical files on disk,
and on success the filename is only echoed in the response. -/
theorem C9_storage_path_noninterference
    (env : UploadEnv) (f2 : String) (st : Store)
    (h1 : endsWithPdf env.filename = true)
    (h2 : endsWithPdf f2 = true)
    (hsize : env.content_len ≤ env.max_file_size) :
    (upload_pdf env st).2.2 =
        (upload_pdf (UploadEnv.mk f2 env.content_len env.max_file_size env.storage_path
          env.pdf_id env.upload_time env.submit) st).2.2
    ∧ (upload_pdf env st).2.1.files =
        (upload_pdf (UploadEnv.mk f2 env.content_len env.max_file_size env.storage_path
          env.pdf_id env.upload_time env.submit) st).2.1.files
    ∧ (upload_pdf env st).2.2.head? =
        some (Ev.fileWrite (os_path_join env.storage_path (env.pdf_id ++ ".pdf")))
    ∧ (∀ d, env.submit = Except.ok d →
        (upload_pdf env st).1 = UploadOutcome.ok env.pdf_id env.filename "success") := by
  have hlt : ¬ env.max_file_size < env.content_len := Nat.not_lt.mpr hsize
  refine ⟨?_, ?_, ?_, ?_⟩
  · cases hsub : env.submit with
    | ok d => simp [upload_pdf, h1, h2, hlt, hsub]
    | error e => simp [upload_pdf, h1, h2, hlt, hsub]
  · cases hsub : env.submit with
    | ok d => simp [upload_pdf, h1, h2, hlt, hsub]
    | error e => simp [upload_pdf, h1, h2, hlt, hsub]
  · cases hsub : env.submit with
    | ok d => simp [upload_pdf, h1, hlt, hsub]
    | error e => simp [upload_pdf, h1, hlt, hsub]
  · intro d hsub
    simp [upload_pdf, h1, hlt, hsub]

/-- Concrete accepted upload environment used by the C9 witness. -/
def exUploadOk : UploadEnv :=
  UploadEnv.mk "report.pdf" 10 100 "./uploaded_pdfs" "p1" 0 (Except.ok "d1")

theorem C9_witness :
    (endsWithPdf exUploadOk.filename = true
      ∧ endsWithPdf "OTHER.PDF" = true
      ∧ exUploadOk.content_len ≤ exUploadOk.max_file_size)
    ∧ ((upload_pdf exUploadOk (Store.mk [] [] [])).2.2 =
        (upload_pdf (UploadEnv.mk "OTHER.PDF" exUploadOk.content_len exUploadOk.max_file_size
          exUploadOk.storage_path exUploadOk.pdf_id exUploadOk.upload_time exUploadOk.submit)
          (Store.mk [] [] [])).2.2
      ∧ (upload_pdf exUploadOk (Store.mk [] [] [])).2.1.files =
        (upload_pdf (UploadEnv.mk "OTHER.PDF" exUploadOk.content_len exUploadOk.max_file_size
          exUploadOk.storage_path exUploadOk.pdf_id exUploadOk.upload_time exUploadOk.submit)
          (Store.mk [] [] [])).2.1.files
      ∧ (upload_pdf exUploadOk (Store.mk [] [] [])).2.2.head? =
          some (Ev.fileWrite (os_path_join exUploadOk.storage_path (exUploadOk.pdf_id ++ ".pdf")))
      ∧ (∀ d, exUploadOk.submit = Except.ok d →
          (upload_pdf exUploadOk (Store.mk [] [] [])).1 =
            UploadOutcome.ok exUploadOk.pdf_id exUploadOk.filename "success")) :=
  ⟨⟨by decide, by decide, by decide⟩,
    C9_storage_path_noninterference exUploadOk "OTHER.PDF" (Store.mk [] [] [])
      (by decide) (by decide) (by decide)⟩

/-- Claim C10: the invariant tying pdf_storage and doc_storage (equal
key sets, and doc_storage at each key equal to the doc_id of the
pdf_storage record) is preserved by every upload and by every delete,
including the failing branches that leave both maps untouched. -/
theorem C10_storages_invariant_preserved (st : Store) (hinv : Inv st) :
    (∀ env, Inv (upload_pdf env st).2.1) ∧ (∀ pdf_id, Inv (delete_pdf pdf_id st).2) := by
  constructor
  · intro env
    by_cases he : endsWithPdf env.filename
    · by_cases hs : env.max_file_size < env.content_len
      · simpa [upload_pdf, he, hs] using hinv
      · cases hsub : env.submit with
        | ok d =>
          have h1 : (upload_pdf env st).2.1.pdf_storage =
              insertA st.pdf_storage env.pdf_id
                (PdfRecord.mk env.filename
                  (os_path_join env.storage_path (env.pdf_id ++ ".pdf")) d env.upload_time) := by
            simp [upload_pdf, he, hs, hsub]
          have h2 : (upload_pdf env st).2.1.doc_storage =
              insertA st.doc_storage env.pdf_id d := by
            simp [upload_pdf, he, hs, hsub]
          intro k
          rw [h1, h2]
          simp only [insertA, lookupA_cons]
          by_cases hk : env.pdf_id = k
          · simp [hk]
          · simp [hk, hinv k]
        | error e =>
          have h1 : (upload_pdf env st).2.1.pdf_storage = st.pdf_storage := by
            simp [upload_pdf, he, hs, hsub, mem_writeFile]
          have h2 : (upload_pdf env st).2.1.doc_storage = st.doc_storage := by
            simp [upload_pdf, he, hs, hsub, mem_writeFile]
          intro k
          rw [h1, h2]
          exact hinv k
    · simpa [upload_pdf, he] using hinv
  · intro pdf_id
    cases hl : lookupA st.pdf_storage pdf_id with
    | none => simpa [delete_pdf, hl] using hinv
    | some r =>
      have hdoc : lookupA st.doc_storage pdf_id = some r.doc_id := by
        rw [hinv pdf_id, hl]
        rfl
      have hcont : containsA st.doc_storage pdf_id = true := by
        simp [containsA, hdoc]
      intro k
      simp only [delete_pdf, hl]
      split <;> simp only [hcont, if_true, lookupA_removeA] <;>
        by_cases hk : k = pdf_id <;> simp [hk, hinv k]

/-- Concrete consistent store used by the C10 witness. -/
def exStore : Store :=
  Store.mk ["./uploaded_pdfs/p1.pdf"] [("p1", exRecord)] [("p1", "d1")]

theorem C10_witness :
    Inv exStore
    ∧ ((∀ env, Inv (upload_pdf env exStore).2.1)
      ∧ (∀ pdf_id, Inv (delete_pdf pdf_id exStore).2)) :=
  have hinv : Inv exStore := by
    intro k
    by_cases hk : ("p1" : String) = k <;>
      simp [exStore, lookupA, hk, exRecord]
  ⟨hinv, C10_storages_invariant_preserved exStore hinv⟩

end PageIndexRAG
